import Mathlib

/-!
Shallow embedding of `src/metadata.rs` from the rust-tuf metadata core.

Conventions:
* Rust byte slices (`&[u8]`, `Vec<u8>`) are `List Nat` (each entry a byte value).
* Rust `str`/`String` is Lean `String`; the `str::starts_with` / `str::ends_with`
  operations are modelled on the character sequence of the string.
* Fallible operations return `Except`.
* External crates (`ring` signature verification, `ring` SHA-256 digest) are
  modelled as oracle parameters: pure unknown functions supplied to the
  embedded code, so that theorems can express which data reaches them and
  when the result does not depend on them at all.
* Repository modules that are not under `src/` (`error.rs`, `cjson.rs`,
  `rsa.rs`) are modelled from the spec, as marked on each definition.
-/

namespace Tuf

/-- Modelled from the spec: the error taxonomy of `error.rs` (not under
`src/`), restricted to the variants constructed in `src/metadata.rs`:
`UnknownRole`, `UnsupportedKeyType`, `UnsupportedSignatureScheme`,
`VerificationFailure` and the catch-all `Generic` message. -/
inductive Error where
  | UnknownRole (s : String)
  | UnsupportedKeyType (s : String)
  | UnsupportedSignatureScheme (s : String)
  | VerificationFailure (s : String)
  | Generic (s : String)
deriving DecidableEq

/-- `enum KeyType` from `src/metadata.rs`: Ed25519, RSA, or an unsupported
key type carrying the original name. -/
inductive KeyType where
  | Ed25519
  | Rsa
  | Unsupported (s : String)
deriving DecidableEq

/-- `enum SignatureScheme` from `src/metadata.rs`. -/
inductive SignatureScheme where
  | Ed25519
  | RsaSsaPssSha256
  | RsaSsaPssSha512
  | Unsupported (s : String)
deriving DecidableEq

/-- `enum HashType` from `src/metadata.rs`. -/
inductive HashType where
  | Sha256
  | Sha512
  | Unsupported (s : String)
deriving DecidableEq

/-- `KeyType::supports` from `src/metadata.rs`: which signature schemes a
key type supports. -/
def KeyType.supports (t : KeyType) (scheme : SignatureScheme) : Bool :=
  match t, scheme with
  | .Ed25519, .Ed25519 => true
  | .Rsa, .RsaSsaPssSha256 => true
  | .Rsa, .RsaSsaPssSha512 => true
  | _, _ => false

/-- `KeyType::from_str` from `src/metadata.rs`: total over strings, never
an error. -/
def KeyType.from_str (s : String) : Except Error KeyType :=
  match s with
  | "ed25519" => .ok .Ed25519
  | "rsa" => .ok .Rsa
  | typ => .ok (.Unsupported typ)

/-- `SignatureScheme::from_str` from `src/metadata.rs`. -/
def SignatureScheme.from_str (s : String) : Except Error SignatureScheme :=
  match s with
  | "ed25519" => .ok .Ed25519
  | "rsassa-pss-sha256" => .ok .RsaSsaPssSha256
  | "rsassa-pss-sha512" => .ok .RsaSsaPssSha512
  | typ => .ok (.Unsupported typ)

/-- `HashType::from_str` from `src/metadata.rs`. -/
def HashType.from_str (s : String) : Except Error HashType :=
  match s with
  | "sha256" => .ok .Sha256
  | "sha512" => .ok .Sha512
  | typ => .ok (.Unsupported typ)

/-- `struct KeyValue` from `src/metadata.rs`: decoded raw bytes, the
original textual form, and the inferred key type. -/
structure KeyValue where
  value : List Nat
  original : String
  typ : KeyType
deriving DecidableEq

/-- `struct Key` from `src/metadata.rs`. -/
structure Key where
  typ : KeyType
  value : KeyValue
deriving DecidableEq

/-- `struct KeyId(pub String)` from `src/metadata.rs`. -/
structure KeyId where
  id : String
deriving DecidableEq

/-- `struct SignatureValue(Vec<u8>)` from `src/metadata.rs`. -/
structure SignatureValue where
  val : List Nat
deriving DecidableEq

/-- The static verification algorithms of the `ring` crate referenced by
`src/metadata.rs` (`ED25519`, `RSA_PSS_2048_8192_SHA256`,
`RSA_PSS_2048_8192_SHA512`). -/
inductive RingAlg where
  | ED25519
  | RSA_PSS_2048_8192_SHA256
  | RSA_PSS_2048_8192_SHA512
deriving DecidableEq

/-- Oracle for the external cryptographic primitives used by
`SignatureScheme::verify` in `src/metadata.rs`:

* `ringVerify alg key msg sig` models `ring::signature::verify` of the
  external `ring` crate (`true` = signature valid);
* `convert_to_pkcs1` — Modelled from the spec: `rsa::convert_to_pkcs1`
  lives in `rsa.rs`, which is not under `src/`; the spec describes it as a
  pure, side-effect-free, total re-encoding of raw key bytes into the
  structured PKCS#1 form the verification primitive accepts. It is kept
  abstract here as an arbitrary pure function on byte lists. -/
structure RingOracle where
  ringVerify : RingAlg → List Nat → List Nat → List Nat → Bool
  convert_to_pkcs1 : List Nat → List Nat

/-- The `let alg = match self { ... Unsupported => return Err(...) }`
prelude of `SignatureScheme::verify` in `src/metadata.rs`: selects the
`ring` algorithm, or errors out early for an unsupported scheme. -/
def SignatureScheme.ringAlg : SignatureScheme → Except Error RingAlg
  | .Ed25519 => .ok .ED25519
  | .RsaSsaPssSha256 => .ok .RSA_PSS_2048_8192_SHA256
  | .RsaSsaPssSha512 => .ok .RSA_PSS_2048_8192_SHA512
  | .Unsupported s => .error (.UnsupportedSignatureScheme s)

/-- `SignatureScheme::verify` from `src/metadata.rs`: select the `ring`
algorithm, then call `ring::signature::verify` with
`convert_to_pkcs1(&pub_key.value)` as the key input (the conversion is
applied unconditionally, for every scheme), mapping primitive failure to
`Error::VerificationFailure("Bad signature")`. -/
def SignatureScheme.verify (o : RingOracle) (scheme : SignatureScheme)
    (pub_key : KeyValue) (msg : List Nat) (sig : SignatureValue) :
    Except Error Unit :=
  match SignatureScheme.ringAlg scheme with
  | .error e => .error e
  | .ok alg =>
    if o.ringVerify alg (o.convert_to_pkcs1 pub_key.value) msg sig.val then
      .ok ()
    else
      .error (.VerificationFailure "Bad signature")

/-- Rust `derive(Debug)` rendering of a string: quoted, with quote and
backslash escaped. -/
def debugString (s : String) : String :=
  "\"" ++ String.mk (s.data.flatMap fun c =>
    if c = '"' then ['\\', '"']
    else if c = '\\' then ['\\', '\\']
    else [c]) ++ "\""

/-- Rust `derive(Debug)` rendering of `KeyType`. -/
def KeyType.debugFmt : KeyType → String
  | .Ed25519 => "Ed25519"
  | .Rsa => "Rsa"
  | .Unsupported s => "Unsupported(" ++ debugString s ++ ")"

/-- Rust `derive(Debug)` rendering of `SignatureScheme`. -/
def SignatureScheme.debugFmt : SignatureScheme → String
  | .Ed25519 => "Ed25519"
  | .RsaSsaPssSha256 => "RsaSsaPssSha256"
  | .RsaSsaPssSha512 => "RsaSsaPssSha512"
  | .Unsupported s => "Unsupported(" ++ debugString s ++ ")"

/-- Rust `derive(Debug)` rendering of a `Vec<u8>`. -/
def debugBytes (bs : List Nat) : String :=
  "[" ++ String.intercalate ", " (bs.map toString) ++ "]"

/-- Rust `derive(Debug)` rendering of `KeyValue`. -/
def KeyValue.debugFmt (kv : KeyValue) : String :=
  "KeyValue \x7b value: " ++ debugBytes kv.value ++ ", original: " ++
    debugString kv.original ++ ", typ: " ++ kv.typ.debugFmt ++ " \x7d"

/-- Rust `derive(Debug)` rendering of `Key`. -/
def Key.debugFmt (k : Key) : String :=
  "Key \x7b typ: " ++ k.typ.debugFmt ++ ", value: " ++
    k.value.debugFmt ++ " \x7d"

/-- The message built by `format!("Signature scheme mismatch: Key {:?},
Scheme {:?}", self, scheme)` in `Key::verify`. -/
def schemeMismatchMsg (k : Key) (scheme : SignatureScheme) : String :=
  "Signature scheme mismatch: Key " ++ k.debugFmt ++ ", Scheme " ++
    scheme.debugFmt

/-- `Key::verify` from `src/metadata.rs`: if the key type supports the
scheme, dispatch to `SignatureScheme::verify` (with a dead
`UnsupportedKeyType` arm for unsupported key types); otherwise fail with
the generic scheme-mismatch error. -/
def Key.verify (o : RingOracle) (self : Key) (scheme : SignatureScheme)
    (msg : List Nat) (sig : SignatureValue) : Except Error Unit :=
  if self.typ.supports scheme then
    match self.typ with
    | .Unsupported s => .error (.UnsupportedKeyType s)
    | _ => SignatureScheme.verify o scheme self.value msg sig
  else
    .error (.Generic (schemeMismatchMsg self scheme))

/-- Oracle for the external SHA-256 digest primitive (`ring::digest::digest`
with `SHA256`) used by `KeyValue::key_id` in `src/metadata.rs`. -/
structure DigestOracle where
  sha256 : List Nat → List Nat

/-- UTF-8 encoding of one character (code point → byte list). -/
def utf8Bytes (c : Char) : List Nat :=
  let n := c.toNat
  if n < 128 then [n]
  else if n < 2048 then [192 + n / 64, 128 + n % 64]
  else if n < 65536 then [224 + n / 4096, 128 + n / 64 % 64, 128 + n % 64]
  else [240 + n / 262144, 128 + n / 4096 % 64, 128 + n / 64 % 64, 128 + n % 64]

/-- Modelled from the spec: `cjson::canonicalize` (in `cjson.rs`, not under
`src/`) applied to a JSON string value, as done by `KeyValue::key_id` via
`canonicalize(&json::Value::String(original)).unwrap()`. Canonical JSON
renders a string as a double-quoted UTF-8 string in which only the quote
and the backslash are escaped; on a string value canonicalization is total,
so the `.unwrap()` never fires. -/
def canonicalizeStr (s : String) : List Nat :=
  [34] ++ (s.data.flatMap fun c =>
    if c = '"' then [92, 34]
    else if c = '\\' then [92, 92]
    else utf8Bytes c) ++ [34]

/-- One lowercase hexadecimal digit, as emitted by `data_encoding::HEXLOWER`. -/
def hexChar (n : Nat) : Char :=
  if n < 10 then Char.ofNat (48 + n) else Char.ofNat (87 + n % 16)

/-- `data_encoding::HEXLOWER.encode`: each byte as two lowercase hex digits. -/
def hexEncode (bs : List Nat) : String :=
  String.mk (bs.flatMap fun b => [hexChar (b / 16 % 16), hexChar (b % 16)])

/-- `KeyValue::key_id` from `src/metadata.rs`: for an unsupported key type,
the fixed sentinel `KeyId("error")`; otherwise the lowercase-hex SHA-256
digest of the canonicalization of the original textual key string. -/
def KeyValue.key_id (o : DigestOracle) (kv : KeyValue) : KeyId :=
  match kv.typ with
  | .Unsupported _ => KeyId.mk "error"
  | _ => KeyId.mk (hexEncode (o.sha256 (canonicalizeStr kv.original)))

/-- `enum TargetPaths` from `src/metadata.rs` (the hash-prefix variant is
not implemented in the source). -/
inductive TargetPaths where
  | Patterns (ps : List String)
deriving DecidableEq

/-- `struct DelegatedRole` from `src/metadata.rs`. The `i32` threshold is
an integer (range-checked at parse time). -/
structure DelegatedRole where
  name : String
  key_ids : List KeyId
  threshold : Int
  terminating : Bool
  paths : TargetPaths
deriving DecidableEq

/-- Rust `str::ends_with(suffix)` on the character sequence. -/
def rustEndsWith (s suffix : String) : Bool :=
  suffix.data.isSuffixOf s.data

/-- Rust `str::starts_with(pre)` on the character sequence. -/
def rustStartsWith (s pre : String) : Bool :=
  pre.data.isPrefixOf s.data

/-- The pattern loop of `DelegatedRole::could_have_target` in
`src/metadata.rs`: return `true` on the first pattern equal to the target,
or ending in `"/"` while being a literal prefix of the target. -/
def couldHaveTargetLoop (patterns : List String) (target : String) : Bool :=
  match patterns with
  | [] => false
  | path :: rest =>
    if path = target then true
    else if rustEndsWith path "/" && rustStartsWith target path then true
    else couldHaveTargetLoop rest target

/-- `DelegatedRole::could_have_target` from `src/metadata.rs`. -/
def DelegatedRole.could_have_target (self : DelegatedRole) (target : String) :
    Bool :=
  match self.paths with
  | .Patterns patterns => couldHaveTargetLoop patterns target

/-- The `serde_json::Value` tree manipulated by the custom deserializers in
`src/metadata.rs`. Objects are association lists with distinct keys (the
`serde_json` map); numbers are integers (no field deserialized in
`src/metadata.rs` needs a float). -/
inductive Json where
  | null
  | bool (b : Bool)
  | num (n : Int)
  | str (s : String)
  | arr (xs : List Json)
  | obj (fields : List (String × Json))

/-- `serde_json::Map::remove(key)`, read-only part: the value stored under
`key`, if any (keys are distinct, so the first match is the match). -/
def Json.lookup (fields : List (String × Json)) (key : String) :
    Option Json :=
  match fields with
  | [] => none
  | (k, v) :: rest => if k = key then some v else Json.lookup rest key

/-- Serde deserializer errors are their rendered message strings
(`D::Error::custom`). -/
abbrev DeError := String

/-- Stand-in for the rendered message of a `serde_json` built-in type error
(the exact text is produced by the external `serde` crate; no theorem
depends on it). -/
def serdeTypeErr : DeError := "invalid type"

/-- `serde_json::from_value::<String>`. -/
def fromValueString (v : Json) : Except DeError String :=
  match v with
  | .str s => .ok s
  | _ => .error serdeTypeErr

/-- `serde_json::from_value::<bool>`. -/
def fromValueBool (v : Json) : Except DeError Bool :=
  match v with
  | .bool b => .ok b
  | _ => .error serdeTypeErr

/-- `serde_json::from_value::<i32>`: an integral number within the `i32`
range. -/
def fromValueI32 (v : Json) : Except DeError Int :=
  match v with
  | .num n =>
    if -2147483648 ≤ n ∧ n ≤ 2147483647 then .ok n else .error serdeTypeErr
  | _ => .error serdeTypeErr

/-- Sequential element-wise deserialization of a list, stopping at the
first error (the `serde` sequence visitor). -/
def deList (f : Json → Except DeError α) : List Json → Except DeError (List α)
  | [] => .ok []
  | x :: xs =>
    match f x with
    | .error e => .error e
    | .ok a =>
      match deList f xs with
      | .error e => .error e
      | .ok as => .ok (a :: as)

/-- `serde_json::from_value::<Vec<T>>`: element-wise deserialization of an
array. -/
def fromValueVec (f : Json → Except DeError α) (v : Json) :
    Except DeError (List α) :=
  match v with
  | .arr xs => deList f xs
  | _ => .error serdeTypeErr

/-- The `Deserialize` impl of `KeyId` in `src/metadata.rs`. -/
def KeyId.deserialize (j : Json) : Except DeError KeyId :=
  match j with
  | .str s => .ok (KeyId.mk s)
  | _ => .error "Key ID was not a string"

/-- One lowercase hex digit value (`data_encoding::HEXLOWER` symbols). -/
def hexDigitVal (c : Char) : Option Nat :=
  let n := c.toNat
  if 48 ≤ n ∧ n ≤ 57 then some (n - 48)
  else if 97 ≤ n ∧ n ≤ 102 then some (n - 87)
  else none

/-- `data_encoding::HEXLOWER.decode` on a character list: pairs of
lowercase hex digits; odd length or a foreign symbol fails. -/
def hexDecode : List Char → Option (List Nat)
  | [] => some []
  | [_] => none
  | c₁ :: c₂ :: rest =>
    match hexDigitVal c₁, hexDigitVal c₂, hexDecode rest with
    | some h, some l, some bs => some ((h * 16 + l) :: bs)
    | _, _, _ => none

/-- Stand-in for the rendered message of a `data_encoding` decode error
(external crate; no theorem depends on it). -/
def hexDecodeErr : String := "invalid symbol"

/-- The `Deserialize` impl of `SignatureValue` in `src/metadata.rs`. -/
def SignatureValue.deserialize (j : Json) : Except DeError SignatureValue :=
  match j with
  | .str s =>
    match hexDecode s.data with
    | some v => .ok (SignatureValue.mk v)
    | none => .error ("Signature value was not hex: " ++ hexDecodeErr)
  | _ => .error "Signature value was not a string"

/-- The `Deserialize` impl of `SignatureScheme` in `src/metadata.rs`:
`s.parse().map_err(|_| unreachable!())` — the parse is total, so the error
arm is dead code (modelled as an explicit error value for faithfulness). -/
def SignatureScheme.deserialize (j : Json) : Except DeError SignatureScheme :=
  match j with
  | .str s =>
    match SignatureScheme.from_str s with
    | .ok t => .ok t
    | .error _ => .error "unreachable"
  | _ => .error "Key type was not a string"

/-- The `Deserialize` impl of `KeyType` in `src/metadata.rs` (same shape as
the one for `SignatureScheme`). -/
def KeyType.deserialize (j : Json) : Except DeError KeyType :=
  match j with
  | .str s =>
    match KeyType.from_str s with
    | .ok t => .ok t
    | .error _ => .error "unreachable"
  | _ => .error "Key type was not a string"

/-- The `Deserialize` impl of `HashType` in `src/metadata.rs`. -/
def HashType.deserialize (j : Json) : Except DeError HashType :=
  match j with
  | .str s =>
    match HashType.from_str s with
    | .ok t => .ok t
    | .error _ => .error "unreachable"
  | _ => .error "Hash type was not a string"

/-- `struct Signature` from `src/metadata.rs`. -/
structure Signature where
  key_id : KeyId
  method : SignatureScheme
  sig : SignatureValue
deriving DecidableEq

/-- The `Deserialize` impl of `Signature` in `src/metadata.rs`: requires an
object with `keyid`, `method` and `sig` members, each parsed with a
field-named error wrapper. -/
def Signature.deserialize (j : Json) : Except DeError Signature :=
  match j with
  | .obj object =>
    match Json.lookup object "keyid", Json.lookup object "method",
        Json.lookup object "sig" with
    | some k, some m, some s =>
      match KeyId.deserialize k with
      | .error e => .error ("Failed at keyid: " ++ e)
      | .ok key_id =>
        match SignatureScheme.deserialize m with
        | .error e => .error ("Failed at method: " ++ e)
        | .ok method =>
          match SignatureValue.deserialize s with
          | .error e => .error ("Failed at sig: " ++ e)
          | .ok sig => .ok { key_id := key_id, method := method, sig := sig }
    | _, _, _ => .error "Signature missing fields"
  | _ => .error "Signature was not an object"

/-- `struct SignedMetadata<R>` from `src/metadata.rs`, with the
compile-time-only `PhantomData<R>` role marker dropped (the deserializer
does not depend on `R`). -/
structure SignedMetadata where
  signatures : List Signature
  signed : Json

/-- The `Deserialize` impl of `SignedMetadata` in `src/metadata.rs`: the
input must be an object whose `signatures` member is an array and whose
`signed` member is an object; the signatures array is parsed element-wise
and the `signed` object is stored as-is. -/
def SignedMetadata.deserialize (j : Json) : Except DeError SignedMetadata :=
  match j with
  | .obj object =>
    match Json.lookup object "signatures", Json.lookup object "signed" with
    | some (.arr a), some (.obj v) =>
      match (deList Signature.deserialize a).mapError
          (fun e => "Bad signature data: " ++ e) with
      | .error e => .error e
      | .ok sigs => .ok { signatures := sigs, signed := .obj v }
    | _, _ => .error "Metadata missing 'signed' or 'signatures' section"
  | _ => .error "Metadata was not an object"

/-- `struct RoleDefinition` from `src/metadata.rs`. -/
structure RoleDefinition where
  key_ids : List KeyId
  threshold : Int
deriving DecidableEq

/-- The `Deserialize` impl of `RoleDefinition` in `src/metadata.rs`:
requires `keyids` (array of key IDs) and `threshold` (i32), and rejects
`threshold <= 0`. -/
def RoleDefinition.deserialize (j : Json) : Except DeError RoleDefinition :=
  match j with
  | .obj object =>
    match Json.lookup object "keyids" with
    | none => .error "Field 'keyids' missing"
    | some kv =>
      match (fromValueVec KeyId.deserialize kv).mapError
          (fun e => "Field 'keyids' not a valid array: " ++ e) with
      | .error e => .error e
      | .ok key_ids =>
        match Json.lookup object "threshold" with
        | none => .error "Field 'threshold' missing"
        | some tv =>
          match (fromValueI32 tv).mapError
              (fun e => "Field 'threshold' not a an int: " ++ e) with
          | .error e => .error e
          | .ok threshold =>
            if threshold ≤ 0 then .error "'threshold' must be >= 1"
            else .ok { key_ids := key_ids, threshold := threshold }
  | _ => .error "Role definition was not an object"

/-- The `Deserialize` impl of `DelegatedRole` in `src/metadata.rs`: a
six-way match on the `name`, `keyids`, `threshold`, `terminating`, `paths`
and `path_hash_prefixes` members, with dedicated errors when both `paths`
and `path_hash_prefixes` are present and when only `path_hash_prefixes`
is. -/
def DelegatedRole.deserialize (j : Json) : Except DeError DelegatedRole :=
  match j with
  | .obj object =>
    match Json.lookup object "name", Json.lookup object "keyids",
        Json.lookup object "threshold", Json.lookup object "terminating",
        Json.lookup object "paths", Json.lookup object "path_hash_prefixes" with
    | some n, some ks, some t, some term, some ps, none =>
      match fromValueString n with
      | .error e => .error ("Failed at name: " ++ e)
      | .ok name =>
        match fromValueVec KeyId.deserialize ks with
        | .error e => .error ("Failed at keyids: " ++ e)
        | .ok key_ids =>
          match fromValueI32 t with
          | .error e => .error ("Failed at treshold: " ++ e)
          | .ok threshold =>
            match fromValueBool term with
            | .error e => .error ("Failed at treshold: " ++ e)
            | .ok terminating =>
              match fromValueVec fromValueString ps with
              | .error e => .error ("Failed at treshold: " ++ e)
              | .ok paths =>
                .ok { name := name, key_ids := key_ids,
                      threshold := threshold, terminating := terminating,
                      paths := .Patterns paths }
    | _, _, _, _, some _, some _ =>
      .error "Fields 'paths' or 'pash_hash_prefixes' are mutually exclusive"
    | _, _, _, _, _, some _ =>
      .error "'pash_hash_prefixes' is not yet supported"
    | _, _, _, _, _, _ => .error "Signature missing fields"
  | _ => .error "Delegated role was not an object"

/-- The delegated role built by the `delegated_role_could_have_target` test
fixture in `src/metadata.rs` for a single pattern. -/
def testRole (pat : String) : DelegatedRole :=
  { name := "", key_ids := [], threshold := 1, terminating := false,
    paths := .Patterns [pat] }

/-- A verification oracle that rejects everything, used to instantiate
oracle-parametric theorems at a concrete input. -/
def oracleZero : RingOracle :=
  { ringVerify := fun _ _ _ _ => false, convert_to_pkcs1 := fun bs => bs }

/-- A `ring::signature::verify` stand-in that answers according to whether
the key input it receives is empty — used to observe which bytes reach the
primitive. -/
def probeRingVerify : RingAlg → List Nat → List Nat → List Nat → Bool :=
  fun _ key _ _ => key.isEmpty

/-- An oracle whose key re-encoding collapses every key to the empty byte
list, with the probing primitive. -/
def probeOracleDrop : RingOracle :=
  { ringVerify := probeRingVerify, convert_to_pkcs1 := fun _ => [] }

/-- An oracle whose key re-encoding is the identity, with the same probing
primitive as `probeOracleDrop`. -/
def probeOracleKeep : RingOracle :=
  { ringVerify := probeRingVerify, convert_to_pkcs1 := fun bs => bs }

/-- A digest oracle whose SHA-256 stand-in is the identity on byte lists,
used to instantiate digest-parametric theorems at a concrete input. -/
def digestIdOracle : DigestOracle := { sha256 := fun bs => bs }

/- ## Theorems -/

/-- The trailing-separator condition of the pattern loop, as a proposition:
the pattern ends in `"/"` and is a literal prefix of the target. -/
theorem rustSlashCond_iff (p t : String) :
    (rustEndsWith p "/" && rustStartsWith t p) = true ↔
      (['/'] <:+ p.data ∧ p.data <+: t.data) := by
  unfold rustEndsWith rustStartsWith
  rw [Bool.and_eq_true]
  exact and_congr List.isSuffixOf_iff_suffix List.isPrefixOf_iff_prefix

/-- The pattern loop returns `true` exactly when some pattern equals the
target or is a directory-style prefix of it. -/
theorem couldHaveTargetLoop_iff (ps : List String) (t : String) :
    couldHaveTargetLoop ps t = true ↔
      ∃ p ∈ ps, p = t ∨ (['/'] <:+ p.data ∧ p.data <+: t.data) := by
  induction ps with
  | nil => simp [couldHaveTargetLoop]
  | cons p rest ih =>
    constructor
    · intro h
      unfold couldHaveTargetLoop at h
      split_ifs at h with h1 h2
      · exact ⟨p, List.mem_cons_self p rest, Or.inl h1⟩
      · exact ⟨p, List.mem_cons_self p rest,
          Or.inr ((rustSlashCond_iff p t).mp h2)⟩
      · obtain ⟨q, hq, hP⟩ := ih.mp h
        exact ⟨q, List.mem_cons_of_mem _ hq, hP⟩
    · rintro ⟨q, hq, hP⟩
      unfold couldHaveTargetLoop
      rcases List.mem_cons.mp hq with rfl | hq'
      · split_ifs with h1 h2
        · rfl
        · rfl
        · rcases hP with h | h
          · exact absurd h h1
          · exact absurd ((rustSlashCond_iff q t).mpr h) h2
      · split_ifs with h1 h2
        · rfl
        · rfl
        · exact ih.mpr ⟨q, hq', hP⟩

/-- C3: `DelegatedRole::could_have_target` returns `true` iff some pattern
equals the target exactly, or ends with the separator `"/"` and is a
literal prefix of the target; and the five fixture vectors from the
source's own test hold. -/
theorem claim_c3_could_have_target
    (nm : String) (ks : List KeyId) (th : Int) (term : Bool)
    (ps : List String) (t : String) :
    (DelegatedRole.could_have_target
        ⟨nm, ks, th, term, .Patterns ps⟩ t = true ↔
      ∃ p ∈ ps, p = t ∨ (['/'] <:+ p.data ∧ p.data <+: t.data)) ∧
    DelegatedRole.could_have_target (testRole "foo") "foo" = true ∧
    DelegatedRole.could_have_target (testRole "foo/") "foo/bar" = true ∧
    DelegatedRole.could_have_target (testRole "foo") "foo/bar" = false ∧
    DelegatedRole.could_have_target (testRole "foo/bar") "foo/baz" = false ∧
    DelegatedRole.could_have_target (testRole "foo/bar/") "foo/bar/baz" = true := by
  refine ⟨couldHaveTargetLoop_iff ps t, ?_, ?_, ?_, ?_, ?_⟩ <;> decide

/-- C3 witness: the general equivalence applied at the concrete pattern
list `["a/"]` and target `"a/b"`. -/
theorem claim_c3_witness :
    DelegatedRole.could_have_target
      ⟨"", [], 1, false, .Patterns ["a/"]⟩ "a/b" = true :=
  (claim_c3_could_have_target "" [] 1 false ["a/"] "a/b").1.mpr
    ⟨"a/", by decide, Or.inr (by decide)⟩

/-- C9: for a key whose type is `Unsupported`, `Key::verify` always takes
the scheme/key-type mismatch branch (since `KeyType::supports` is false for
every scheme there), so the `UnsupportedKeyType` arm inside the supported
branch is unreachable. -/
theorem claim_c9_unsupported_key_is_mismatch (o : RingOracle) (nm : String)
    (kv : KeyValue) (scheme : SignatureScheme) (msg : List Nat)
    (sg : SignatureValue) :
    Key.verify o ⟨.Unsupported nm, kv⟩ scheme msg sg =
      .error (.Generic (schemeMismatchMsg ⟨.Unsupported nm, kv⟩ scheme)) := by
  cases scheme <;> rfl

/-- C10: an object with an empty `keyids` array and threshold `1` parses
successfully into a `RoleDefinition` with no key ids: the parser imposes no
lower bound on the number of key ids. -/
theorem claim_c10_empty_keyids_accepted :
    RoleDefinition.deserialize
      (.obj [("keyids", Json.arr []), ("threshold", Json.num 1)]) =
      .ok { key_ids := [], threshold := 1 } := by
  rfl

/-- C1: for the three matching key-type/scheme pairings, `Key::verify`
proceeds to the cryptographic check (`SignatureScheme::verify`); for every
other pairing it returns the scheme/key-type mismatch error, with a result
that does not depend on the cryptographic oracle at all — the primitive is
never invoked. -/
theorem claim_c1_verify_dispatch (o : RingOracle) (k : Key)
    (scheme : SignatureScheme) (msg : List Nat) (sg : SignatureValue) :
    (((k.typ = .Ed25519 ∧ scheme = .Ed25519) ∨
      (k.typ = .Rsa ∧ scheme = .RsaSsaPssSha256) ∨
      (k.typ = .Rsa ∧ scheme = .RsaSsaPssSha512)) →
      Key.verify o k scheme msg sg =
        SignatureScheme.verify o scheme k.value msg sg) ∧
    (¬ ((k.typ = .Ed25519 ∧ scheme = .Ed25519) ∨
      (k.typ = .Rsa ∧ scheme = .RsaSsaPssSha256) ∨
      (k.typ = .Rsa ∧ scheme = .RsaSsaPssSha512)) →
      Key.verify o k scheme msg sg =
        .error (.Generic (schemeMismatchMsg k scheme))) := by
  obtain ⟨kt, kval⟩ := k
  cases kt <;> cases scheme <;> refine ⟨fun h => ?_, fun h => ?_⟩ <;>
    first
      | rfl
      | (exfalso; simp_all)

/-- C1 witness: an Ed25519 key presented with an RSA-PSS scheme is a
mismatch, and an Ed25519 key with the Ed25519 scheme reaches the
cryptographic check. -/
theorem claim_c1_witness :
    Key.verify oracleZero ⟨.Ed25519, ⟨[], "", .Ed25519⟩⟩
        .RsaSsaPssSha256 [] ⟨[]⟩ =
      .error (.Generic (schemeMismatchMsg ⟨.Ed25519, ⟨[], "", .Ed25519⟩⟩
        .RsaSsaPssSha256)) ∧
    Key.verify oracleZero ⟨.Ed25519, ⟨[], "", .Ed25519⟩⟩ .Ed25519 [] ⟨[]⟩ =
      SignatureScheme.verify oracleZero .Ed25519 ⟨[], "", .Ed25519⟩ [] ⟨[]⟩ :=
  ⟨(claim_c1_verify_dispatch oracleZero ⟨.Ed25519, ⟨[], "", .Ed25519⟩⟩
      .RsaSsaPssSha256 [] ⟨[]⟩).2 (by decide),
   (claim_c1_verify_dispatch oracleZero ⟨.Ed25519, ⟨[], "", .Ed25519⟩⟩
      .Ed25519 [] ⟨[]⟩).1 (by decide)⟩

/-- C4 counterexample: two oracles with the same verification primitive
that differ only in the key re-encoding step give different results for an
Ed25519 verification, so the re-encoding is applied on the Ed25519 path
too — it is not reserved to the RSA-PSS schemes as the claim states. -/
theorem claim_c4_counterexample :
    SignatureScheme.verify probeOracleDrop .Ed25519 ⟨[1], "k", .Ed25519⟩
        [] ⟨[]⟩ ≠
      SignatureScheme.verify probeOracleKeep .Ed25519 ⟨[1], "k", .Ed25519⟩
        [] ⟨[]⟩ := by
  intro h
  exact Except.noConfusion h

/-- C4 (amended): the re-encoding of the stored raw key bytes is applied
before the verification primitive for every supported scheme — Ed25519 and
both RSA-PSS schemes alike — the scheme selecting only the algorithm
handed to the primitive; an unsupported scheme errors out before any
re-encoding or primitive call; and a failed primitive yields the
`VerificationFailure` error value, never a panic. -/
theorem claim_c4_conversion_uniform (o : RingOracle) (kv : KeyValue)
    (msg : List Nat) (sg : SignatureValue) :
    (SignatureScheme.verify o .Ed25519 kv msg sg =
      if o.ringVerify .ED25519 (o.convert_to_pkcs1 kv.value) msg sg.val
      then .ok () else .error (.VerificationFailure "Bad signature")) ∧
    (SignatureScheme.verify o .RsaSsaPssSha256 kv msg sg =
      if o.ringVerify .RSA_PSS_2048_8192_SHA256 (o.convert_to_pkcs1 kv.value)
          msg sg.val
      then .ok () else .error (.VerificationFailure "Bad signature")) ∧
    (SignatureScheme.verify o .RsaSsaPssSha512 kv msg sg =
      if o.ringVerify .RSA_PSS_2048_8192_SHA512 (o.convert_to_pkcs1 kv.value)
          msg sg.val
      then .ok () else .error (.VerificationFailure "Bad signature")) ∧
    (∀ s, SignatureScheme.verify o (.Unsupported s) kv msg sg =
      .error (.UnsupportedSignatureScheme s)) :=
  ⟨rfl, rfl, rfl, fun _ => rfl⟩

/-- C2: for a supported key type, `KeyValue::key_id` is the lowercase-hex
encoding of the SHA-256 digest of the canonicalization of the original
textual key string, hence deterministic and depending only on that
original string; for an unsupported key type it is the fixed sentinel
`KeyId("error")`. -/
theorem claim_c2_key_id (o : DigestOracle) (kv kv' : KeyValue) :
    ((kv.typ = .Ed25519 ∨ kv.typ = .Rsa) →
      KeyValue.key_id o kv =
        KeyId.mk (hexEncode (o.sha256 (canonicalizeStr kv.original)))) ∧
    (∀ n, kv.typ = .Unsupported n →
      KeyValue.key_id o kv = KeyId.mk "error") ∧
    ((kv.typ = .Ed25519 ∨ kv.typ = .Rsa) →
      (kv'.typ = .Ed25519 ∨ kv'.typ = .Rsa) →
      kv.original = kv'.original →
      KeyValue.key_id o kv = KeyValue.key_id o kv') := by
  obtain ⟨v, og, t⟩ := kv
  obtain ⟨v', og', t'⟩ := kv'
  refine ⟨fun h => ?_, fun n h => ?_, fun h h' he => ?_⟩
  · rcases h with h | h <;> (simp only at h; subst h; rfl)
  · simp only at h; subst h; rfl
  · simp only at he; subst he
    rcases h with h | h <;> rcases h' with h' | h' <;>
      (simp only at h h'; subst h; subst h'; rfl)

/-- C2 witness: with the identity digest stand-in, the key id of an
Ed25519 `KeyValue` with original string `"ab"` is the hex encoding of the
canonical string bytes `"\x22ab\x22"`. -/
theorem claim_c2_witness :
    KeyValue.key_id digestIdOracle ⟨[], "ab", .Ed25519⟩ =
      KeyId.mk "22616222" :=
  ((claim_c2_key_id digestIdOracle ⟨[], "ab", .Ed25519⟩
      ⟨[], "ab", .Ed25519⟩).1 (Or.inl rfl)).trans (by decide)

/-- `KeyType::from_str` as a closed-form conditional. -/
theorem keyType_from_str_eq (s : String) :
    KeyType.from_str s =
      .ok (if s = "ed25519" then .Ed25519
           else if s = "rsa" then .Rsa
           else .Unsupported s) := by
  simp only [KeyType.from_str]
  split <;> simp_all

/-- `SignatureScheme::from_str` as a closed-form conditional. -/
theorem signatureScheme_from_str_eq (s : String) :
    SignatureScheme.from_str s =
      .ok (if s = "ed25519" then .Ed25519
           else if s = "rsassa-pss-sha256" then .RsaSsaPssSha256
           else if s = "rsassa-pss-sha512" then .RsaSsaPssSha512
           else .Unsupported s) := by
  simp only [SignatureScheme.from_str]
  split <;> simp_all

/-- `HashType::from_str` as a closed-form conditional. -/
theorem hashType_from_str_eq (s : String) :
    HashType.from_str s =
      .ok (if s = "sha256" then .Sha256
           else if s = "sha512" then .Sha512
           else .Unsupported s) := by
  simp only [HashType.from_str]
  split <;> simp_all

/-- C8: parsing a keytype, scheme, or hash-algorithm name never fails:
recognized lowercase names map to their variant and every other string is
preserved as `Unsupported` with the original name, so the error branch
after these parses in the deserializers is unreachable (the string-input
deserializers always succeed). -/
theorem claim_c8_name_parses_total (s : String) :
    (KeyType.from_str s =
      .ok (if s = "ed25519" then .Ed25519
           else if s = "rsa" then .Rsa
           else .Unsupported s)) ∧
    (SignatureScheme.from_str s =
      .ok (if s = "ed25519" then .Ed25519
           else if s = "rsassa-pss-sha256" then .RsaSsaPssSha256
           else if s = "rsassa-pss-sha512" then .RsaSsaPssSha512
           else .Unsupported s)) ∧
    (HashType.from_str s =
      .ok (if s = "sha256" then .Sha256
           else if s = "sha512" then .Sha512
           else .Unsupported s)) ∧
    (∃ t, KeyType.deserialize (.str s) = .ok t) ∧
    (∃ t, SignatureScheme.deserialize (.str s) = .ok t) ∧
    (∃ t, HashType.deserialize (.str s) = .ok t) := by
  refine ⟨keyType_from_str_eq s, signatureScheme_from_str_eq s,
    hashType_from_str_eq s,
    ⟨if s = "ed25519" then .Ed25519 else if s = "rsa" then .Rsa
      else .Unsupported s, ?_⟩,
    ⟨if s = "ed25519" then .Ed25519
      else if s = "rsassa-pss-sha256" then .RsaSsaPssSha256
      else if s = "rsassa-pss-sha512" then .RsaSsaPssSha512
      else .Unsupported s, ?_⟩,
    ⟨if s = "sha256" then .Sha256 else if s = "sha512" then .Sha512
      else .Unsupported s, ?_⟩⟩
  · simp only [KeyType.deserialize, keyType_from_str_eq]
  · simp only [SignatureScheme.deserialize, signatureScheme_from_str_eq]
  · simp only [HashType.deserialize, hashType_from_str_eq]

/-- Parsing an array of JSON strings as key IDs succeeds element-wise. -/
theorem deList_keyId_str (ss : List String) :
    deList KeyId.deserialize (ss.map Json.str) = .ok (ss.map KeyId.mk) := by
  induction ss with
  | nil => rfl
  | cons s rest ih => simp [deList, KeyId.deserialize, ih]

/-- C6: a `RoleDefinition` parse rejects every object whose `threshold`
member is an integer below 1, and accepts threshold `1` with a well-formed
`keyids` array of positive length, yielding exactly that threshold and
those key ids. -/
theorem claim_c6_threshold (object : List (String × Json)) (n : Int)
    (ss : List String) :
    (Json.lookup object "threshold" = some (.num n) → n < 1 →
      ∃ e, RoleDefinition.deserialize (.obj object) = .error e) ∧
    (ss ≠ [] →
      RoleDefinition.deserialize
        (.obj [("keyids", .arr (ss.map .str)), ("threshold", .num 1)]) =
        .ok { key_ids := ss.map KeyId.mk, threshold := 1 }) := by
  constructor
  · intro ht hn
    cases hk : Json.lookup object "keyids" with
    | none =>
      exact ⟨"Field 'keyids' missing", by simp [RoleDefinition.deserialize, hk]⟩
    | some kv =>
      cases hv : fromValueVec KeyId.deserialize kv with
      | error e =>
        exact ⟨"Field 'keyids' not a valid array: " ++ e,
          by simp [RoleDefinition.deserialize, hk, hv, Except.mapError]⟩
      | ok ks =>
        by_cases hr : (-2147483648 ≤ n ∧ n ≤ 2147483647)
        · refine ⟨"'threshold' must be >= 1", ?_⟩
          have hle : n ≤ 0 := by omega
          simp [RoleDefinition.deserialize, hk, hv, ht, fromValueI32, hr,
            Except.mapError, hle]
        · exact ⟨"Field 'threshold' not a an int: " ++ serdeTypeErr,
            by simp [RoleDefinition.deserialize, hk, hv, ht,
              fromValueI32, hr, Except.mapError]⟩
  · intro _
    have hmap := deList_keyId_str ss
    simp [RoleDefinition.deserialize, Json.lookup, fromValueVec,
      fromValueI32, Except.mapError, hmap]

/-- C6 witness: an object with one key id and threshold `1` parses to that
role definition. -/
theorem claim_c6_witness :
    RoleDefinition.deserialize
      (.obj [("keyids", .arr [Json.str "k"]), ("threshold", .num 1)]) =
      .ok { key_ids := [KeyId.mk "k"], threshold := 1 } :=
  (claim_c6_threshold [] 0 ["k"]).2 (by simp)

/-- C7: a `DelegatedRole` entry with both `paths` and `path_hash_prefixes`
is rejected with the mutual-exclusion error; one with `path_hash_prefixes`
but no `paths` is rejected with the feature-unsupported error; and the two
messages are distinguishable from each other and from the missing-fields
error. -/
theorem claim_c7_path_hash_rejections (object : List (String × Json))
    (v w : Json) :
    (Json.lookup object "paths" = some v →
      Json.lookup object "path_hash_prefixes" = some w →
      DelegatedRole.deserialize (.obj object) =
        .error "Fields 'paths' or 'pash_hash_prefixes' are mutually exclusive") ∧
    (Json.lookup object "paths" = none →
      Json.lookup object "path_hash_prefixes" = some w →
      DelegatedRole.deserialize (.obj object) =
        .error "'pash_hash_prefixes' is not yet supported") ∧
    (Json.lookup object "name" = none →
      Json.lookup object "path_hash_prefixes" = none →
      DelegatedRole.deserialize (.obj object) =
        .error "Signature missing fields") ∧
    ("Fields 'paths' or 'pash_hash_prefixes' are mutually exclusive" ≠
      "'pash_hash_prefixes' is not yet supported") ∧
    ("Fields 'paths' or 'pash_hash_prefixes' are mutually exclusive" ≠
      "Signature missing fields") ∧
    ("'pash_hash_prefixes' is not yet supported" ≠
      "Signature missing fields") := by
  refine ⟨fun h5 h6 => ?_, fun h5 h6 => ?_, fun h1 h6 => ?_,
    by decide, by decide, by decide⟩
  · cases h1 : Json.lookup object "name" <;>
    cases h2 : Json.lookup object "keyids" <;>
    cases h3 : Json.lookup object "threshold" <;>
    cases h4 : Json.lookup object "terminating" <;>
      simp [DelegatedRole.deserialize, h1, h2, h3, h4, h5, h6]
  · cases h1 : Json.lookup object "name" <;>
    cases h2 : Json.lookup object "keyids" <;>
    cases h3 : Json.lookup object "threshold" <;>
    cases h4 : Json.lookup object "terminating" <;>
      simp [DelegatedRole.deserialize, h1, h2, h3, h4, h5, h6]
  · cases h2 : Json.lookup object "keyids" <;>
    cases h3 : Json.lookup object "threshold" <;>
    cases h4 : Json.lookup object "terminating" <;>
    cases h5 : Json.lookup object "paths" <;>
      simp [DelegatedRole.deserialize, h1, h2, h3, h4, h5, h6]

/-- C7 witness: an object with both members present is rejected with the
mutual-exclusion error, and one with only `path_hash_prefixes` with the
unsupported-feature error. -/
theorem claim_c7_witness :
    DelegatedRole.deserialize
      (.obj [("paths", Json.arr []), ("path_hash_prefixes", Json.arr [])]) =
      .error "Fields 'paths' or 'pash_hash_prefixes' are mutually exclusive" ∧
    DelegatedRole.deserialize
      (.obj [("path_hash_prefixes", Json.arr [])]) =
      .error "'pash_hash_prefixes' is not yet supported" :=
  ⟨(claim_c7_path_hash_rejections
      [("paths", Json.arr []), ("path_hash_prefixes", Json.arr [])]
      (Json.arr []) (Json.arr [])).1 rfl rfl,
   ((claim_c7_path_hash_rejections
      [("path_hash_prefixes", Json.arr [])]
      (Json.arr []) (Json.arr [])).2.1 rfl rfl)⟩

/-- C5: deserializing a `SignedMetadata` envelope succeeds only on an
object with a `signatures` array member and a `signed` object member, the
latter stored as the envelope's canonical payload; and an object missing
either member is rejected with the missing-section format error, never
accepted. -/
theorem claim_c5_signed_metadata (j : Json) (m : SignedMetadata)
    (fields : List (String × Json)) :
    (SignedMetadata.deserialize j = .ok m →
      ∃ object a v, j = .obj object ∧
        Json.lookup object "signatures" = some (.arr a) ∧
        Json.lookup object "signed" = some (.obj v) ∧
        m.signed = .obj v) ∧
    ((Json.lookup fields "signed" = none ∨
      Json.lookup fields "signatures" = none) →
      SignedMetadata.deserialize (.obj fields) =
        .error "Metadata missing 'signed' or 'signatures' section") := by
  constructor
  · intro h
    cases j with
    | obj object =>
      cases hs : Json.lookup object "signatures" with
      | none => simp [SignedMetadata.deserialize, hs] at h
      | some sv =>
        cases hd : Json.lookup object "signed" with
        | none =>
          cases sv <;> simp [SignedMetadata.deserialize, hs, hd] at h
        | some dv =>
          cases sv <;> cases dv <;>
            simp [SignedMetadata.deserialize, hs, hd, Except.mapError] at h
          case arr.obj a v =>
            cases hm : deList Signature.deserialize a with
            | error e => simp [hm] at h
            | ok sigs =>
              simp [hm] at h
              exact ⟨object, a, v, rfl, hs, hd, by rw [← h]⟩
    | null => simp [SignedMetadata.deserialize] at h
    | bool b => simp [SignedMetadata.deserialize] at h
    | num n => simp [SignedMetadata.deserialize] at h
    | str s => simp [SignedMetadata.deserialize] at h
    | arr xs => simp [SignedMetadata.deserialize] at h
  · intro h
    rcases h with hd | hs
    · cases hsig : Json.lookup fields "signatures" with
      | none => simp [SignedMetadata.deserialize, hsig, hd]
      | some sv => cases sv <;> simp [SignedMetadata.deserialize, hsig, hd]
    · cases hsd : Json.lookup fields "signed" with
      | none => simp [SignedMetadata.deserialize, hs, hsd]
      | some dv => cases dv <;> simp [SignedMetadata.deserialize, hs, hsd]

/-- C5 witness: a document with only a `signatures` member is rejected
with the missing-section error. -/
theorem claim_c5_witness :
    SignedMetadata.deserialize (.obj [("signatures", Json.arr [])]) =
      .error "Metadata missing 'signed' or 'signatures' section" :=
  (claim_c5_signed_metadata (.obj [("signatures", Json.arr [])])
      { signatures := [], signed := .null }
      [("signatures", Json.arr [])]).2 (Or.inl rfl)

end Tuf
